import Mathlib

/-!
Verification of the `uchiha` engine (src/engine.hxx, src/engine.cxx).

The GPU driver and SDL are external collaborators: every GL / SDL call the
engine issues is recorded in an explicit trace, and driver-determined
outcomes (compile status, info logs, generated handle values, decoded
images, pending events) are parameters of the embedded functions.
Vertex components are `float`s that the engine only stores and copies,
never computes with, so they are modelled by `Rat` (any scalar type with
decidable equality is faithful for copy-only semantics).
-/

/-- Scalar field layout constant: `sizeof(float)` on the target platform. -/
def sizeof_float : Nat := 4

/-- `uchiha::vertex` (engine.hxx lines 7-48): 9 packed float fields in
declaration order x y z r g b a tx ty. -/
structure vertex where
  x : Rat
  y : Rat
  z : Rat
  r : Rat
  g : Rat
  b : Rat
  a : Rat
  tx : Rat
  ty : Rat
deriving DecidableEq, Repr

/-- `sizeof(uchiha::vertex)`: nine 4-byte floats, no padding. -/
def sizeof_vertex : Nat := 9 * sizeof_float

/-- The 9 scalars of a vertex in declaration (= memory) order. -/
def vertexFloats (v : vertex) : List Rat :=
  [v.x, v.y, v.z, v.r, v.g, v.b, v.a, v.tx, v.ty]

/-- `uchiha::triangle` (engine.hxx lines 50-59): `vertex v[3]`, filled as
v[0] := v1, v[1] := v2, v[2] := v3 by the constructor. -/
structure triangle where
  v0 : vertex
  v1 : vertex
  v2 : vertex
deriving DecidableEq, Repr

/-- The 27 scalars of a triangle: its three vertices' fields, contiguous. -/
def triangleFloats (t : triangle) : List Rat :=
  vertexFloats t.v0 ++ vertexFloats t.v1 ++ vertexFloats t.v2

/-- The byte region `[data(), data() + 3N*sizeof(vertex))` handed to
`glBufferData` / `glBufferSubData` (engine.cxx lines 371-375, 406-410):
by `std::vector` contiguity it is exactly the triangles' scalars in input
order. -/
def uploadPayload : List triangle → List Rat
  | [] => []
  | t :: rest => triangleFloats t ++ uploadPayload rest

/-- The same region viewed at vertex granularity: triangle i's three
vertices occupy stream positions 3i, 3i+1, 3i+2. -/
def vertexStream : List triangle → List vertex
  | [] => []
  | t :: rest => t.v0 :: t.v1 :: t.v2 :: vertexStream rest

/-- Scalars of a vertex stream, each vertex contributing its 9 fields. -/
def streamFloats : List vertex → List Rat
  | [] => []
  | v :: rest => vertexFloats v ++ streamFloats rest

/-- One GL call issued by a draw path (engine.cxx lines 367-443).
`refFirstVertex` records line 371 / line 406, `&vertex_buffer.data()->v[0]`:
the member access into the vector's underlying storage performed before any
size check; its argument is the vertex the access refers to, `none` when
the storage is empty and the access has no valid target (null-pointer
member access, undefined behaviour in C++). -/
inductive Call where
  | useProgram (idx : Nat)
  | getUniformLocation (name : String)
  | activeTexture (unit : Nat)
  | bindTexture (handle : Nat)
  | uniform1i (name : String) (value : Nat)
  | refFirstVertex (target : Option vertex)
  | bufferData (sizeBytes : Nat) (data : List Rat)
  | bufferSubData (offset sizeBytes : Nat) (data : List Rat)
  | enableVertexAttribArray (idx : Nat)
  | vertexAttribPointer (idx comps : Nat) (normalized : Bool)
      (stride offsetBytes : Nat)
  | drawArrays (first count : Nat)
  | disableVertexAttribArray (idx : Nat)
deriving DecidableEq, Repr

/-- `engine_impl::render(const std::vector<triangle>&)`
(engine.cxx lines 367-398), untextured path, as its GL call trace.
The upload size is `static_cast<uint32_t>((size() * 3) * sizeof(vertex))`
(engine.cxx lines 372-373), so it is taken modulo 2^32 and wraps for huge
sequences; the data argument of `bufferData` / `bufferSubData` records the
region the GL actually reads: the first `data_size_in_bytes` bytes — i.e.
the first `data_size_in_bytes / sizeof(float)` scalars — of the contiguous
vertex data at the supplied pointer. The draw count is
`static_cast<GLsizei>(size() * 3)` (line 394), a 32-bit value, likewise
modelled modulo 2^32. -/
def render_flat (vertex_buffer : List triangle) : List Call :=
  let t : Option vertex := vertex_buffer.head?.map (fun tr => tr.v0)
  let data_size_in_bytes : Nat :=
    vertex_buffer.length * 3 * sizeof_vertex % 2 ^ 32
  let uploaded : List Rat :=
    (uploadPayload vertex_buffer).take (data_size_in_bytes / sizeof_float)
  let num_of_vertexes : Nat := vertex_buffer.length * 3 % 2 ^ 32
  [Call.useProgram 0,
   Call.refFirstVertex t,
   Call.bufferData data_size_in_bytes uploaded,
   Call.bufferSubData 0 data_size_in_bytes uploaded,
   Call.enableVertexAttribArray 0,
   Call.vertexAttribPointer 0 3 false sizeof_vertex 0,
   Call.enableVertexAttribArray 1,
   Call.vertexAttribPointer 1 4 false sizeof_vertex (sizeof_float * 3),
   Call.drawArrays 0 num_of_vertexes,
   Call.disableVertexAttribArray 0,
   Call.disableVertexAttribArray 1]

/-- `shader::set_uniform` (engine.cxx lines 84-90): resolves the uniform,
activates texture unit `GL_TEXTURE0 + handle`, binds the texture there and
sets the sampler to `0 + handle`. -/
def set_uniform (attr : String) (handle : Nat) : List Call :=
  [Call.getUniformLocation attr,
   Call.activeTexture handle,
   Call.bindTexture handle,
   Call.uniform1i attr handle]

/-- `engine_impl::render(const std::vector<triangle>&, const texture&)`
(engine.cxx lines 400-443), textured path, as its GL call trace;
`txHandle` is the texture argument's `get_handle()` value. The upload size
carries the same `static_cast<uint32_t>` (engine.cxx lines 407-408) and
the draw count the same `GLsizei` cast (line 438) as the untextured path,
modelled modulo 2^32 as in `render_flat`. -/
def render_textured (vertex_buffer : List triangle) (txHandle : Nat) :
    List Call :=
  let t : Option vertex := vertex_buffer.head?.map (fun tr => tr.v0)
  let data_size_in_bytes : Nat :=
    vertex_buffer.length * 3 * sizeof_vertex % 2 ^ 32
  let uploaded : List Rat :=
    (uploadPayload vertex_buffer).take (data_size_in_bytes / sizeof_float)
  let num_of_vertexes : Nat := vertex_buffer.length * 3 % 2 ^ 32
  [Call.useProgram 1] ++
  set_uniform "s_texture" txHandle ++
  [Call.refFirstVertex t,
   Call.bufferData data_size_in_bytes uploaded,
   Call.bufferSubData 0 data_size_in_bytes uploaded,
   Call.enableVertexAttribArray 0,
   Call.vertexAttribPointer 0 3 false sizeof_vertex 0,
   Call.enableVertexAttribArray 1,
   Call.vertexAttribPointer 1 4 false sizeof_vertex (sizeof_float * 3),
   Call.enableVertexAttribArray 2,
   Call.vertexAttribPointer 2 2 false sizeof_vertex (sizeof_float * 7),
   Call.drawArrays 0 num_of_vertexes,
   Call.disableVertexAttribArray 0,
   Call.disableVertexAttribArray 1,
   Call.disableVertexAttribArray 2]

/-- Selects the `glVertexAttribPointer` calls of a trace. -/
def isAttribPointer : Call → Bool
  | Call.vertexAttribPointer _ _ _ _ _ => true
  | _ => false

/-- One GL call issued during shader construction (engine.cxx lines 20-90). -/
inductive SCall where
  | createShader (stage : Nat) (handle : Nat)
  | shaderSource (handle : Nat) (src : String)
  | compileShader (handle : Nat)
  | getShaderCompileStatus (handle : Nat)
  | getShaderInfoLogLength (handle : Nat)
  | getShaderInfoLog (handle : Nat) (log : String)
  | deleteShader (handle : Nat)
  | createProgram (handle : Nat)
  | attachShader (program handle : Nat)
  | bindAttribLocation (program idx : Nat) (name : String)
  | linkProgram (program : Nat)
  | getProgramLinkStatus (program : Nat)
  | getProgramInfoLogLength (program : Nat)
  | getProgramInfoLog (program : Nat) (log : String)
  | deleteProgram (program : Nat)
  | useProgram (program : Nat)
deriving DecidableEq, Repr

/-- Driver-determined outcomes of one `uchiha::shader` construction:
the handle values `glCreateShader` / `glCreateProgram` return, the two
compile statuses with their info logs, and the link status with its log. -/
structure ShaderDriver where
  vsHandle : Nat
  fsHandle : Nat
  progHandle : Nat
  vsOk : Bool
  fsOk : Bool
  vsLog : String
  fsLog : String
  linkOk : Bool
  linkLog : String
deriving Repr

/-- `shader::init_shader` (engine.cxx lines 20-36): sources and compiles
one stage; on failure it reads the info-log length, copies the driver log
into a local buffer (which the caller never sees), deletes the shader and
returns false. Returns (success, GL trace). -/
def init_shader (handle : Nat) (src : String) (ok : Bool) (log : String) :
    Bool × List SCall :=
  let base := [SCall.shaderSource handle src,
               SCall.compileShader handle,
               SCall.getShaderCompileStatus handle]
  if ok then
    (true, base)
  else
    (false, base ++ [SCall.getShaderInfoLogLength handle,
                     SCall.getShaderInfoLog handle log,
                     SCall.deleteShader handle])

/-- The member state of a constructed `uchiha::shader`
(engine.cxx lines 16-18): the three handle values, kept even when the
underlying GL objects were deleted on a failure path. -/
structure shaderObj where
  vertex_shader : Nat
  fragment_shader : Nat
  program : Nat
deriving DecidableEq, Repr

/-- `shader::shader` (engine.cxx lines 39-81): compiles both stages,
creates the program, attaches both shaders, binds every supplied
`(index, name)` attribute pair, links, and checks the link status.
Failures only print a fixed message to stderr (the captured logs are
discarded); construction always completes and returns a `shaderObj`.
Returns (object, GL trace, stderr lines). -/
def shader_ctor (drv : ShaderDriver) (vsrc fsrc : String)
    (attributes : List (Nat × String)) :
    shaderObj × List SCall × List String :=
  let vres := init_shader drv.vsHandle vsrc drv.vsOk drv.vsLog
  let verr : List String :=
    if vres.1 then []
    else ["error: Failed to create vertex shader ( engine.cxx:  )"]
  let fres := init_shader drv.fsHandle fsrc drv.fsOk drv.fsLog
  let ferr : List String :=
    if fres.1 then []
    else ["error: Failed to create fragment shader ( engine.cxx:  )"]
  let perr : List String :=
    if drv.progHandle = 0 then
      ["error: Failed to create program ( engine.cxx:  )"]
    else []
  let binds : List SCall :=
    attributes.map (fun attr =>
      SCall.bindAttribLocation drv.progHandle attr.1 attr.2)
  let linkTail : List SCall :=
    if drv.linkOk then []
    else [SCall.getProgramInfoLogLength drv.progHandle,
          SCall.getProgramInfoLog drv.progHandle drv.linkLog,
          SCall.deleteProgram drv.progHandle]
  let linkErr : List String :=
    if drv.linkOk then []
    else ["error: Failed to link program ( engine.cxx:  )" ++
          toString drv.linkLog.length]
  let trace : List SCall :=
    [SCall.createShader 0 drv.vsHandle] ++ vres.2 ++
    [SCall.createShader 1 drv.fsHandle] ++ fres.2 ++
    [SCall.createProgram drv.progHandle,
     SCall.attachShader drv.progHandle drv.vsHandle,
     SCall.attachShader drv.progHandle drv.fsHandle] ++
    binds ++
    [SCall.linkProgram drv.progHandle,
     SCall.getProgramLinkStatus drv.progHandle] ++
    linkTail
  (⟨drv.vsHandle, drv.fsHandle, drv.progHandle⟩,
   trace,
   verr ++ ferr ++ perr ++ linkErr)

/-- `shader::use` (engine.cxx line 83): activates the program member. -/
def shader_use (s : shaderObj) : SCall :=
  SCall.useProgram s.program

/-- Selects the `glBindAttribLocation` calls of a shader trace. -/
def isBind : SCall → Bool
  | SCall.bindAttribLocation _ _ _ => true
  | _ => false

/-- Selects the `glLinkProgram` calls of a shader trace. -/
def isLink : SCall → Bool
  | SCall.linkProgram _ => true
  | _ => false

/-- The decoded-image shape `stbi_load` produces on success: width, height
and channel count as C `int`s, plus the pixel bytes. -/
structure decodedImage where
  width : Int
  height : Int
  nrChannels : Int
  data : List Nat
deriving DecidableEq, Repr

/-- One GL call issued by `create_texture` (engine.cxx lines 334-365). -/
inductive TCall where
  | genTextures (handle : Nat)
  | bindTexture (handle : Nat)
  | texParameteri (pname value : String)
  | texImage2D (width height : Int) (data : List Nat)
  | generateMipmap
deriving DecidableEq, Repr

/-- C `int` → `uint16_t` conversion (modular) used by the
`texture_impl(uint16_t, uint16_t, GLuint)` constructor arguments. -/
def uint16_of_int (i : Int) : Nat := (i % 65536).toNat

/-- The member state of a `texture_impl` (engine.cxx lines 96-111). -/
structure texture_impl where
  texture_width : Nat
  texture_height : Nat
  textrure_handle : Nat
deriving DecidableEq, Repr

/-- `engine_impl::create_texture` (engine.cxx lines 334-365): generates and
binds a texture handle, sets the four wrap/filter parameters, then decodes;
on success uploads the image and generates mipmaps, on failure only prints
to stderr. Either way it allocates and returns a `texture_impl` wrapping
the handle — on decode failure the local `int width, height` are still
uninitialized, modelled by the indeterminate values `junkW`, `junkH`.
`handle` is the value `glGenTextures` produced. Returns
(returned texture, GL trace, stderr lines). -/
def create_texture (decoded : Option decodedImage) (junkW junkH : Int)
    (handle : Nat) : texture_impl × List TCall × List String :=
  let pre : List TCall :=
    [TCall.genTextures handle,
     TCall.bindTexture handle,
     TCall.texParameteri "GL_TEXTURE_WRAP_S" "GL_REPEAT",
     TCall.texParameteri "GL_TEXTURE_WRAP_T" "GL_REPEAT",
     TCall.texParameteri "GL_TEXTURE_MIN_FILTER" "GL_LINEAR",
     TCall.texParameteri "GL_TEXTURE_MAG_FILTER" "GL_LINEAR"]
  match decoded with
  | some img =>
      (⟨uint16_of_int img.width, uint16_of_int img.height, handle⟩,
       pre ++ [TCall.texImage2D img.width img.height img.data,
               TCall.generateMipmap],
       [])
  | none =>
      (⟨uint16_of_int junkW, uint16_of_int junkH, handle⟩,
       pre,
       ["error: Failed to load texture ( engine.cxx: )"])

/-- `uchiha::event`'s `type` enumeration (engine.hxx lines 72-79),
member names as in the source. -/
inductive EType where
  | pressed
  | reliased
  | quit
  | mouse_motion
  | mouse_click
deriving DecidableEq, Repr

/-- `uchiha::event`'s `key` enumeration (engine.hxx lines 80-90). -/
inductive EKey where
  | left
  | right
  | top
  | bottom
  | enter
  | escape
  | space
  | undefined_key
deriving DecidableEq, Repr

/-- `uchiha::event` (engine.hxx lines 70-93). -/
structure event where
  type : EType
  key : EKey
  mouse_x : Int
  mouse_y : Int
deriving DecidableEq, Repr

/-- The SDL keycodes `read_input` tests for (engine.cxx lines 310-324);
`other` stands for any keycode outside that set. -/
inductive SDLKeycode where
  | w
  | s
  | a
  | d
  | up
  | down
  | left
  | right
  | escape
  | space
  | kpEnter
  | ret
  | other (code : Nat)
deriving DecidableEq, Repr

/-- A pending SDL event as `SDL_PollEvent` delivers it; `otherEvent`
stands for any `SDL_Event.type` outside the four cases the code handles
(its argument is the raw SDL event-type value). -/
inductive SDLEvent where
  | quitEvent
  | mouseMotion (x y : Int)
  | mouseButtonUp (x y : Int)
  | keyDown (k : SDLKeycode)
  | keyUp (k : SDLKeycode)
  | otherEvent (t : Nat)
deriving DecidableEq, Repr

/-- The keysym → `event.key` chain of engine.cxx lines 310-327. -/
def mapKey : SDLKeycode → EKey
  | SDLKeycode.w => EKey.top
  | SDLKeycode.up => EKey.top
  | SDLKeycode.s => EKey.bottom
  | SDLKeycode.down => EKey.bottom
  | SDLKeycode.a => EKey.left
  | SDLKeycode.left => EKey.left
  | SDLKeycode.d => EKey.right
  | SDLKeycode.right => EKey.right
  | SDLKeycode.escape => EKey.escape
  | SDLKeycode.space => EKey.space
  | SDLKeycode.kpEnter => EKey.enter
  | SDLKeycode.ret => EKey.enter
  | SDLKeycode.other _ => EKey.undefined_key

/-- `engine_impl::read_input` (engine.cxx lines 289-332). `SDL_PollEvent`
pops the head of the pending queue (non-blocking); the four handled event
types update the caller's record and return true, any other pending event
type falls through to `return false` with the record untouched (the event
was still consumed from the queue). Returns
(return value, caller's record after the call, remaining queue). -/
def read_input (ev : event) (queue : List SDLEvent) :
    Bool × event × List SDLEvent :=
  match queue with
  | [] => (false, ev, [])
  | e :: rest =>
    match e with
    | SDLEvent.quitEvent =>
        (true, { ev with type := EType.quit }, rest)
    | SDLEvent.mouseMotion x y =>
        (true, { ev with type := EType.mouse_motion,
                         mouse_x := x, mouse_y := y }, rest)
    | SDLEvent.mouseButtonUp x y =>
        (true, { ev with type := EType.mouse_click,
                         mouse_x := x, mouse_y := y }, rest)
    | SDLEvent.keyDown k =>
        (true, { ev with type := EType.pressed, key := mapKey k }, rest)
    | SDLEvent.keyUp k =>
        (true, { ev with type := EType.reliased, key := mapKey k }, rest)
    | SDLEvent.otherEvent _ =>
        (false, ev, rest)

/-- The event types `read_input` translates (true on the four handled
`SDL_Event.type` cases, false on everything else). -/
def isHandled : SDLEvent → Bool
  | SDLEvent.quitEvent => true
  | SDLEvent.mouseMotion _ _ => true
  | SDLEvent.mouseButtonUp _ _ => true
  | SDLEvent.keyDown _ => true
  | SDLEvent.keyUp _ => true
  | SDLEvent.otherEvent _ => false

/-! Helper lemmas. -/

/-- `takeWhile` passes over a prefix on which the predicate holds. -/
theorem takeWhile_all_append {α : Type} (p : α → Bool) (l₁ l₂ : List α)
    (h : ∀ a ∈ l₁, p a = true) :
    (l₁ ++ l₂).takeWhile p = l₁ ++ l₂.takeWhile p := by
  induction l₁ with
  | nil => rfl
  | cons a l ih =>
      have ha : p a = true := h a (List.mem_cons_self a l)
      simp [List.takeWhile, ha]
      exact ih (fun b hb => h b (List.mem_cons_of_mem a hb))

/-- A filter keeping every element of a list is the identity on it. -/
theorem filter_all_true {α : Type} (p : α → Bool) (l : List α)
    (h : ∀ a ∈ l, p a = true) : l.filter p = l := by
  induction l with
  | nil => rfl
  | cons a t ih =>
      have ha : p a = true := h a (List.mem_cons_self a t)
      simp [List.filter, ha]
      exact fun b hb => h b (List.mem_cons_of_mem a hb)

/-- A filter dropping every element of a list yields the empty list. -/
theorem filter_all_false {α : Type} (p : α → Bool) (l : List α)
    (h : ∀ a ∈ l, p a = false) : l.filter p = [] := by
  induction l with
  | nil => rfl
  | cons a t ih =>
      have ha : p a = false := h a (List.mem_cons_self a t)
      simp [List.filter, ha]
      exact fun b hb => h b (List.mem_cons_of_mem a hb)

/-- The vertex stream of `N` triangles has exactly `3N` vertices. -/
theorem vertexStream_length (vb : List triangle) :
    (vertexStream vb).length = 3 * vb.length := by
  induction vb with
  | nil => rfl
  | cons t rest ih =>
      simp [vertexStream, ih]
      ring

/-- The uploaded scalar region is the vertex stream's scalars. -/
theorem uploadPayload_eq_streamFloats (vb : List triangle) :
    uploadPayload vb = streamFloats (vertexStream vb) := by
  induction vb with
  | nil => rfl
  | cons t rest ih =>
      simp [uploadPayload, vertexStream, streamFloats, triangleFloats, ih,
        List.append_assoc]

/-- Triangle `i`'s three vertices sit at stream positions `3i, 3i+1, 3i+2`,
in the triangle's own order. -/
theorem vertexStream_segment (vb : List triangle) :
    ∀ (i : Nat) (h : i < vb.length),
      ((vertexStream vb).drop (3 * i)).take 3 =
        [(vb.get ⟨i, h⟩).v0, (vb.get ⟨i, h⟩).v1, (vb.get ⟨i, h⟩).v2] := by
  induction vb with
  | nil => intro i h; exact absurd h (Nat.not_lt_zero i)
  | cons t rest ih =>
      intro i h
      cases i with
      | zero => rfl
      | succ j =>
          have hj : j < rest.length := Nat.lt_of_succ_lt_succ h
          have step : 3 * (j + 1) = 3 * j + 3 := by ring
          calc ((vertexStream (t :: rest)).drop (3 * (j + 1))).take 3
              = ((vertexStream rest).drop (3 * j)).take 3 := by
                simp [vertexStream, step, List.drop_succ_cons]
            _ = [(rest.get ⟨j, hj⟩).v0, (rest.get ⟨j, hj⟩).v1,
                 (rest.get ⟨j, hj⟩).v2] := ih j hj

/-! Claim theorems. -/

/-- C1: the claim demands that a draw call on an empty triangle sequence
never dereference the sequence's underlying storage. The code violates it:
on the empty sequence both draw paths still execute
`&vertex_buffer.data()->v[0]` — a storage dereference with no valid target
(`refFirstVertex none` in the trace) — before any size check, though the
rest of the call completes as a zero-vertex draw. -/
theorem render_empty_dereferences_storage :
    Call.refFirstVertex none ∈ render_flat [] ∧
    Call.refFirstVertex none ∈ render_textured [] 5 ∧
    Call.drawArrays 0 0 ∈ render_flat [] ∧
    Call.drawArrays 0 0 ∈ render_textured [] 5 := by
  decide

/-- C2: the claim demands that on decode failure `create_texture` report
an error and construct no texture. The code violates it: with a failed
decode (and uninitialized locals holding, say, 300 and 200) it has already
generated and configured a GPU texture handle, and it still returns a
freshly allocated texture with that handle and nonzero width/height; the
only error signal is a line on stderr. (Mipmap generation is indeed
skipped.) -/
theorem create_texture_decode_failure_returns_texture :
    (create_texture none 300 200 7).1 =
      { texture_width := 300, texture_height := 200, textrure_handle := 7 } ∧
    TCall.genTextures 7 ∈ (create_texture none 300 200 7).2.1 ∧
    TCall.generateMipmap ∉ (create_texture none 300 200 7).2.1 ∧
    (create_texture none 300 200 7).2.2 =
      ["error: Failed to load texture ( engine.cxx: )"] ∧
    (create_texture none 300 200 7).1.texture_width ≠ 0 := by
  decide

/-- C3: the claim demands that a failed shader compile return an error
carrying a non-empty diagnostic log and yield no usable program. The code
violates it: with a vertex stage whose compile fails (driver log
"0:1: syntax error"), the constructor still completes, returns an object
whose `use()` activates program 42 for drawing, attaches the deleted
shader and links anyway, and the only caller-visible signal is a fixed
stderr line that does not contain the captured diagnostic log. -/
theorem shader_compile_failure_still_usable :
    (shader_ctor ⟨10, 11, 42, false, true, "0:1: syntax error", "", true, ""⟩
        "bad vertex src" "good fragment src"
        [(0, "a_position"), (1, "a_color")]).1 =
      { vertex_shader := 10, fragment_shader := 11, program := 42 } ∧
    shader_use (shader_ctor
        ⟨10, 11, 42, false, true, "0:1: syntax error", "", true, ""⟩
        "bad vertex src" "good fragment src"
        [(0, "a_position"), (1, "a_color")]).1 = SCall.useProgram 42 ∧
    (shader_ctor ⟨10, 11, 42, false, true, "0:1: syntax error", "", true, ""⟩
        "bad vertex src" "good fragment src"
        [(0, "a_position"), (1, "a_color")]).2.2 =
      ["error: Failed to create vertex shader ( engine.cxx:  )"] ∧
    SCall.deleteShader 10 ∈
      (shader_ctor ⟨10, 11, 42, false, true, "0:1: syntax error", "", true, ""⟩
        "bad vertex src" "good fragment src"
        [(0, "a_position"), (1, "a_color")]).2.1 ∧
    SCall.linkProgram 42 ∈
      (shader_ctor ⟨10, 11, 42, false, true, "0:1: syntax error", "", true, ""⟩
        "bad vertex src" "good fragment src"
        [(0, "a_position"), (1, "a_color")]).2.1 := by
  decide

/-- C4: in both draw paths, for every input, the enabled vertex attributes
are slot 0 = 3 floats at byte offset 0, slot 1 = 4 floats at byte
offset 12, and (textured path only) slot 2 = 2 floats at byte offset 28,
each with stride `sizeof(vertex)` = 36 bytes = 9 floats. -/
theorem vertex_attribute_layout :
    ∀ (vertex_buffer : List triangle) (txHandle : Nat),
      (render_flat vertex_buffer).filter isAttribPointer =
        [Call.vertexAttribPointer 0 3 false 36 0,
         Call.vertexAttribPointer 1 4 false 36 12] ∧
      (render_textured vertex_buffer txHandle).filter isAttribPointer =
        [Call.vertexAttribPointer 0 3 false 36 0,
         Call.vertexAttribPointer 1 4 false 36 12,
         Call.vertexAttribPointer 2 2 false 36 28] ∧
      sizeof_vertex = 36 ∧ sizeof_vertex = 9 * sizeof_float := by
  intro vb tx
  exact ⟨rfl, rfl, rfl, rfl⟩

/-- Sample triangles: `tr0` and `tr1` from `main` (engine.cxx lines
486-493), their float literals as rationals. -/
def tr0 : triangle :=
  ⟨⟨3/10, -(3/10), 0, 1, 0, 0, 1, 0, 0⟩,
   ⟨0, 3/10, 0, 1, 0, 0, 1, 0, 0⟩,
   ⟨-(3/10), -(3/10), 0, 1, 0, 0, 1, 0, 0⟩⟩

/-- Second sample triangle, see `tr0`. -/
def tr1 : triangle :=
  ⟨⟨3/5, 3/10, 0, 0, 1, 0, 1, 0, 0⟩,
   ⟨9/10, 3/10, 0, 0, 1, 0, 1, 0, 0⟩,
   ⟨3/4, 3/5, 0, 0, 1, 0, 1, 0, 0⟩⟩

/-- The in-memory vertex data of `N` triangles holds `27N` scalars. -/
theorem uploadPayload_length (vb : List triangle) :
    (uploadPayload vb).length = 27 * vb.length := by
  induction vb with
  | nil => rfl
  | cons t rest ih =>
      simp [uploadPayload, triangleFloats, vertexFloats, ih]
      ring

/-- Extracts the scalar counts of the `glBufferData` uploads of a trace. -/
def bufferDataLens (tr : List Call) : List Nat :=
  tr.filterMap (fun c =>
    match c with
    | Call.bufferData _ data => some data.length
    | _ => none)

/-- C5 counterexample: at N = 39768216 triangles the byte size
`(N * 3) * sizeof(vertex)` = 4294967328 overflows the
`static_cast<uint32_t>` (engine.cxx lines 372-373) to 32, so the draw
call uploads only 8 scalars — less than a single vertex — instead of the
3N vertices (1073741832 scalars) the claim requires for every sequence
length. -/
theorem uploaded_stream_wrap_counterexample :
    bufferDataLens (render_flat (List.replicate 39768216 tr0)) = [8] ∧
    9 * (3 * (List.replicate 39768216 tr0).length) = 1073741832 ∧
    (8 : Nat) ≠ 1073741832 := by
  refine ⟨?_, ?_, by norm_num⟩
  · have hsize : (List.replicate 39768216 tr0).length * 3 * sizeof_vertex
        % 2 ^ 32 = 32 := by
      rw [List.length_replicate]
      norm_num [sizeof_vertex, sizeof_float]
    have hlen : (uploadPayload (List.replicate 39768216 tr0)).length =
        1073741832 := by
      rw [uploadPayload_length, List.length_replicate]
    have h8 : (32 : Nat) / sizeof_float = 8 := by
      norm_num [sizeof_float]
    simp only [render_flat, bufferDataLens, hsize, List.filterMap_cons,
      List.filterMap_nil, h8, List.length_take, hlen]
    norm_num
  · rw [List.length_replicate]

/-- C5 (amended): for every triangle sequence of length N whose byte size
`3N * sizeof(vertex)` = 108N fits the `uint32_t` upload-size cast
(108N < 2^32, i.e. N ≤ 39768215), the draw call uploads exactly the
flattened stream — 3N vertices, triangle i's three vertices at stream
positions 3i, 3i+1, 3i+2 in input order — and the upload is a pure
function of the sequence, so re-submitting an identical sequence uploads
identical data. (Beyond that bound the cast wraps and the upload is
truncated.) -/
theorem uploaded_stream_correct :
    ∀ (vertex_buffer : List triangle),
      vertex_buffer.length * 3 * sizeof_vertex < 2 ^ 32 →
      Call.bufferData (vertex_buffer.length * 3 * sizeof_vertex)
          (uploadPayload vertex_buffer) ∈ render_flat vertex_buffer ∧
      uploadPayload vertex_buffer =
        streamFloats (vertexStream vertex_buffer) ∧
      (vertexStream vertex_buffer).length = 3 * vertex_buffer.length ∧
      (∀ (i : Nat) (h : i < vertex_buffer.length),
        ((vertexStream vertex_buffer).drop (3 * i)).take 3 =
          [(vertex_buffer.get ⟨i, h⟩).v0,
           (vertex_buffer.get ⟨i, h⟩).v1,
           (vertex_buffer.get ⟨i, h⟩).v2]) ∧
      (∀ vb₂ : List triangle, vertex_buffer = vb₂ →
        uploadPayload vertex_buffer = uploadPayload vb₂) := by
  intro vb hsize
  refine ⟨?_, uploadPayload_eq_streamFloats vb, vertexStream_length vb,
    vertexStream_segment vb, fun vb₂ hEq => by rw [hEq]⟩
  have hmod : vb.length * 3 * sizeof_vertex % 4294967296 =
      vb.length * 3 * sizeof_vertex := Nat.mod_eq_of_lt hsize
  have h108 : vb.length * 3 * sizeof_vertex = 27 * vb.length * sizeof_float := by
    simp only [sizeof_vertex, sizeof_float]
    ring
  have hdiv : vb.length * 3 * sizeof_vertex / sizeof_float =
      27 * vb.length := by
    rw [h108, Nat.mul_div_cancel _ (by norm_num [sizeof_float])]
  simp [render_flat, hmod, hdiv, uploadPayload_length]

/-- C5 witness: `uploaded_stream_correct` on the two sample triangles
(216 bytes, well under the `uint32_t` bound): upload membership, the
segment of triangle 1, and determinism. -/
theorem uploaded_stream_correct_witness :
    Call.bufferData ([tr0, tr1].length * 3 * sizeof_vertex)
        (uploadPayload [tr0, tr1]) ∈ render_flat [tr0, tr1] ∧
    ((vertexStream [tr0, tr1]).drop (3 * 1)).take 3 =
      [([tr0, tr1].get ⟨1, by decide⟩).v0,
       ([tr0, tr1].get ⟨1, by decide⟩).v1,
       ([tr0, tr1].get ⟨1, by decide⟩).v2] ∧
    uploadPayload [tr0, tr1] = uploadPayload [tr0, tr1] :=
  ⟨(uploaded_stream_correct [tr0, tr1] (by decide)).1,
   (uploaded_stream_correct [tr0, tr1] (by decide)).2.2.2.1 1 (by decide),
   (uploaded_stream_correct [tr0, tr1] (by decide)).2.2.2.2 [tr0, tr1] rfl⟩

/-- C6: key-event translation is total and deterministic — for every
caller record and every keycode, a key-down event yields type `pressed`
and a key-up event yields type `reliased`, the key field is `mapKey` of
the keycode, and `mapKey` realizes exactly the claimed table
(W/up → top, S/down → bottom, A/left → left, D/right → right,
Escape → escape, Space → space, either Enter variant → enter, any other
keycode → undefined_key). -/
theorem key_event_translation :
    ∀ (ev : event) (down : Bool) (k : SDLKeycode) (n : Nat),
      (read_input ev
        [if down then SDLEvent.keyDown k else SDLEvent.keyUp k]).1 = true ∧
      (read_input ev
        [if down then SDLEvent.keyDown k else SDLEvent.keyUp k]).2.1.type =
        (if down then EType.pressed else EType.reliased) ∧
      (read_input ev
        [if down then SDLEvent.keyDown k else SDLEvent.keyUp k]).2.1.key =
        mapKey k ∧
      mapKey SDLKeycode.w = EKey.top ∧
      mapKey SDLKeycode.up = EKey.top ∧
      mapKey SDLKeycode.s = EKey.bottom ∧
      mapKey SDLKeycode.down = EKey.bottom ∧
      mapKey SDLKeycode.a = EKey.left ∧
      mapKey SDLKeycode.left = EKey.left ∧
      mapKey SDLKeycode.d = EKey.right ∧
      mapKey SDLKeycode.right = EKey.right ∧
      mapKey SDLKeycode.escape = EKey.escape ∧
      mapKey SDLKeycode.space = EKey.space ∧
      mapKey SDLKeycode.kpEnter = EKey.enter ∧
      mapKey SDLKeycode.ret = EKey.enter ∧
      mapKey (SDLKeycode.other n) = EKey.undefined_key := by
  intro ev down k n
  cases down <;>
    exact ⟨rfl, rfl, rfl, rfl, rfl, rfl, rfl, rfl, rfl, rfl, rfl, rfl,
           rfl, rfl, rfl, rfl⟩

/-- Binds before the link survive the `takeWhile` cut at the link call. -/
theorem takeWhile_filter_binds (p : Nat) (rest : List SCall)
    (attrs : List (Nat × String)) :
    ((attrs.map (fun attr => SCall.bindAttribLocation p attr.1 attr.2) ++
        SCall.linkProgram p :: rest).takeWhile
      (fun c => !(isLink c))).filter isBind =
      attrs.map (fun attr => SCall.bindAttribLocation p attr.1 attr.2) := by
  induction attrs with
  | nil => rfl
  | cons a t ih =>
      rw [List.map_cons, List.cons_append,
          List.takeWhile_cons_of_pos (by rfl),
          List.filter_cons_of_pos (by rfl), ih]

/-- The link calls of a bind segment followed by a link. -/
theorem filter_link_binds (p : Nat) (rest : List SCall)
    (attrs : List (Nat × String)) :
    (attrs.map (fun attr => SCall.bindAttribLocation p attr.1 attr.2) ++
        SCall.linkProgram p :: rest).filter isLink =
      SCall.linkProgram p :: rest.filter isLink := by
  induction attrs with
  | nil => rfl
  | cons a t ih =>
      rw [List.map_cons, List.cons_append,
          List.filter_cons_of_neg (by simp [isLink]), ih]

/-- C7: in every shader construction — whatever the driver outcomes and
the supplied binding list — the `glBindAttribLocation` calls found before
the (unique) `glLinkProgram` call are exactly one bind per supplied
`(index, name)` pair, in list order; so every pair is bound strictly
before the link step. -/
theorem binds_before_link :
    ∀ (drv : ShaderDriver) (vsrc fsrc : String)
      (attributes : List (Nat × String)),
      (((shader_ctor drv vsrc fsrc attributes).2.1.takeWhile
          (fun c => !(isLink c))).filter isBind) =
        attributes.map (fun attr =>
          SCall.bindAttribLocation drv.progHandle attr.1 attr.2) ∧
      ((shader_ctor drv vsrc fsrc attributes).2.1.filter isLink) =
        [SCall.linkProgram drv.progHandle] := by
  intro drv vsrc fsrc attrs
  obtain ⟨vsH, fsH, pH, vsOk, fsOk, vsLog, fsLog, lOk, lLog⟩ := drv
  constructor
  · cases vsOk <;> cases fsOk <;>
      simp [shader_ctor, init_shader, isLink, isBind] <;>
      exact takeWhile_filter_binds pH _ attrs
  · cases vsOk <;> cases fsOk <;> cases lOk <;>
      simp [shader_ctor, init_shader, isLink, isBind, filter_link_binds] <;>
      (intro a x x1 _ heq; subst heq; rfl)

/-- A concrete caller record for counterexamples and witnesses. -/
def e0 : event :=
  { type := EType.quit, key := EKey.undefined_key, mouse_x := 0,
    mouse_y := 0 }

/-- C8 counterexample: with a pending event of an unhandled SDL type
(1025 = `SDL_MOUSEBUTTONDOWN`) the queue is non-empty, yet `read_input`
reports "no event available" — refuting "reports no event exactly when
the queue is empty" and "returns a translated event whenever the platform
queue is non-empty". -/
theorem read_input_nonempty_queue_no_event :
    (read_input e0 [SDLEvent.otherEvent 1025]).1 = false ∧
    ([SDLEvent.otherEvent 1025] : List SDLEvent) ≠ [] := by
  decide

/-- C8 amended: `read_input` is a pure (hence non-blocking) function of
the queue that consumes at most one pending event per call — the
remaining queue is the input queue's tail — and it reports an event
exactly when the head pending event is of a handled type (quit, mouse
motion, mouse button up, key down, key up); on an empty queue, and on a
pending event of any other type, it reports "no event available". -/
theorem read_input_reports_head_handled :
    ∀ (ev : event) (queue : List SDLEvent),
      (read_input ev queue).1 = (queue.head?.map isHandled).getD false ∧
      (read_input ev queue).2.2 = queue.tail := by
  intro ev queue
  cases queue with
  | nil => exact ⟨rfl, rfl⟩
  | cons e rest => cases e <;> exact ⟨rfl, rfl⟩

/-- C9: `create_texture` always returns a freshly allocated texture
wrapping the handle it generated — it generates and configures the GPU
texture handle before decoding and returns no error value to its caller;
on decode failure the returned object's width/height are whatever the
uninitialized locals held, mipmaps are skipped, and the only signal is a
stderr line. -/
theorem create_texture_always_returns_texture :
    ∀ (decoded : Option decodedImage) (junkW junkH : Int) (handle : Nat),
      (create_texture decoded junkW junkH handle).1.textrure_handle =
        handle ∧
      TCall.genTextures handle ∈
        (create_texture decoded junkW junkH handle).2.1 ∧
      TCall.bindTexture handle ∈
        (create_texture decoded junkW junkH handle).2.1 ∧
      TCall.texParameteri "GL_TEXTURE_MIN_FILTER" "GL_LINEAR" ∈
        (create_texture decoded junkW junkH handle).2.1 ∧
      (decoded = none →
        (create_texture decoded junkW junkH handle).1.texture_width =
          uint16_of_int junkW ∧
        (create_texture decoded junkW junkH handle).1.texture_height =
          uint16_of_int junkH ∧
        TCall.generateMipmap ∉
          (create_texture decoded junkW junkH handle).2.1 ∧
        (create_texture decoded junkW junkH handle).2.2 =
          ["error: Failed to load texture ( engine.cxx: )"]) := by
  intro decoded junkW junkH handle
  cases decoded with
  | none =>
      refine ⟨rfl, ?_, ?_, ?_, fun _ => ⟨rfl, rfl, ?_, rfl⟩⟩ <;>
        simp [create_texture]
  | some img =>
      refine ⟨rfl, ?_, ?_, ?_, fun hc => by cases hc⟩ <;>
        simp [create_texture]

/-- C9 witness: `create_texture_always_returns_texture` evaluated on a
failed decode with junk locals 77 and 88 and generated handle 9. -/
theorem create_texture_always_returns_texture_witness :
    (create_texture none 77 88 9).1.texture_width = uint16_of_int 77 ∧
    (create_texture none 77 88 9).1.texture_height = uint16_of_int 88 ∧
    TCall.generateMipmap ∉ (create_texture none 77 88 9).2.1 ∧
    (create_texture none 77 88 9).2.2 =
      ["error: Failed to load texture ( engine.cxx: )"] :=
  (create_texture_always_returns_texture none 77 88 9).2.2.2.2 rfl

/-- C10: whenever `read_input` returns false, the caller's record is
returned unchanged — every path that writes an event field returns true. -/
theorem read_input_false_leaves_event_unchanged :
    ∀ (ev : event) (queue : List SDLEvent),
      (read_input ev queue).1 = false → (read_input ev queue).2.1 = ev := by
  intro ev queue
  cases queue with
  | nil => simp [read_input]
  | cons e rest => cases e <;> simp [read_input]

/-- A second concrete caller record, with key-type fields populated. -/
def e1 : event :=
  { type := EType.mouse_motion, key := EKey.space, mouse_x := 11,
    mouse_y := 22 }

/-- C10 witness: `read_input_false_leaves_event_unchanged` on a pending
unhandled event (1027 = `SDL_MOUSEWHEEL`). -/
theorem read_input_false_leaves_event_unchanged_witness :
    (read_input e1 [SDLEvent.otherEvent 1027]).2.1 = e1 :=
  read_input_false_leaves_event_unchanged e1 [SDLEvent.otherEvent 1027] rfl
